import Mathlib

/-!
Shallow embedding of the layout sanitizer of the Gemini-designer repository
(`sanitizeLayout` and its helpers in the API route, and `resolveModelPath`
in `src/lib/modelLoader.ts`).

JS numbers are modelled as rationals (ℚ): all the arithmetic the sanitizer
performs (division by the grid step, `Math.round`, `Math.max`/`Math.min`,
halving) is exact on the inputs the claims are about, and `Math.round`
rounds half-up exactly as Mathlib's `round` on ℚ does.  Optional JSON
fields (TS `?` fields, and fields the code guards with `??`) are modelled
as `Option`.
-/

namespace GeminiDesigner

/-- Three-component vector of optional numeric fields, as the sanitizer
reads it at runtime (`position.x ?? 0` and friends). -/
structure Vec3 where
  x : Option ℚ := none
  y : Option ℚ := none
  z : Option ℚ := none
deriving DecidableEq, Repr

/-- Size override `size_m` of a layout object (`{ w?, d?, h? }`). -/
structure SizeM where
  w : Option ℚ := none
  d : Option ℚ := none
  h : Option ℚ := none
deriving DecidableEq, Repr

/-- Material settings of a construction primitive. -/
structure PrimMaterial where
  base_color : Option String := none
  emissive : Option String := none
  metalness : Option ℚ := none
  roughness : Option ℚ := none
deriving DecidableEq, Repr

/-- Size parameters of a construction primitive (`{ w?, d?, h?, r? }`). -/
structure PrimSize where
  w : Option ℚ := none
  d : Option ℚ := none
  h : Option ℚ := none
  r : Option ℚ := none
deriving DecidableEq, Repr

/-- Primitive selector of a `ConstructionPrimitive`. -/
inductive PrimKind where
  | box
  | cylinder
  | plane
  | composite
deriving DecidableEq, Repr

/-- Procedural construction element (pass-through for the sanitizer). -/
structure ConstructionPrimitive where
  prim : PrimKind
  id : Option String := none
  pos : Option Vec3 := none
  rotation_deg : Option Vec3 := none
  size : Option PrimSize := none
  material : Option PrimMaterial := none
  count : Option ℕ := none
  spacing : Option ℚ := none
deriving DecidableEq, Repr

/-- One object instance of a layout (TS `LayoutObject`). -/
structure LayoutObject where
  id : String
  type : Option String := none
  label : Option String := none
  model : Option String := none
  construction : Option (List ConstructionPrimitive) := none
  position_m : Option Vec3 := none
  rotation_deg : Option Vec3 := none
  size_m : Option SizeM := none
  parent : Option String := none
  relative_position_m : Option Vec3 := none
  variant : Option (List (String × String)) := none
deriving DecidableEq, Repr

/-- Room envelope (TS `LayoutRoom`). -/
structure LayoutRoom where
  width_m : ℚ
  depth_m : ℚ
  height_m : ℚ
  floor_material : Option String := none
  wall_color : Option String := none
deriving DecidableEq, Repr

/-- Layout payload (TS `LayoutResponse`); `room` and `objects` are
`Option` because `sanitizeLayout` guards both with `??`. -/
structure LayoutResponse where
  room : Option LayoutRoom := none
  objects : Option (List LayoutObject) := none
  rationale : Option String := none
deriving DecidableEq, Repr

/-- Options of `sanitizeLayout` (TS `SanitizeOptions`). -/
structure SanitizeOptions where
  snap : ℚ
  roomFallback : LayoutRoom
deriving DecidableEq, Repr

/-- Horizontal axis selector of `clampWithinRoom` (`"width" | "depth"`). -/
inductive Axis where
  | width
  | depth
deriving DecidableEq, Repr

/-- Embedding of `snapValue`: `Math.round(value / snap) * snap`.
`Math.round` rounds half toward positive infinity, as does `round` on ℚ. -/
def snapValue (snap value : ℚ) : ℚ :=
  (round (value / snap) : ℤ) * snap

/-- Embedding of `clampWithinRoom`:
`Math.max(-limit + halfSize, Math.min(limit - halfSize, value))`. -/
def clampWithinRoom (room : LayoutRoom) (value halfSize : ℚ) (axis : Axis) : ℚ :=
  let limit := if axis = Axis.width then room.width_m / 2 else room.depth_m / 2
  max (-limit + halfSize) (min (limit - halfSize) value)

/-- JS truthiness of the `object.parent` field: a string is truthy
exactly when it is nonempty. -/
def hasParent (o : LayoutObject) : Bool :=
  match o.parent with
  | some s => s != ""
  | none => false

/-- Body of the `map` inside `sanitizeLayout`: snap each position axis,
clamp x/z within the room, and apply the floor rule on y
(`object.parent || size.h == null ? snappedPosition.y : Math.max(size.h / 2, snappedPosition.y)`). -/
def sanitizeObject (room : LayoutRoom) (options : SanitizeOptions)
    (object : LayoutObject) : LayoutObject :=
  let size := object.size_m.getD {}
  let position := object.position_m.getD { x := some 0, y := some 0, z := some 0 }
  let sx := snapValue options.snap (position.x.getD 0)
  let sy := snapValue options.snap (position.y.getD 0)
  let sz := snapValue options.snap (position.z.getD 0)
  let halfWidth := size.w.getD 0 / 2
  let halfDepth := size.d.getD 0 / 2
  let cy :=
    if hasParent object then sy
    else
      match size.h with
      | none => sy
      | some h => max (h / 2) sy
  { object with
    position_m := some
      { x := some (clampWithinRoom room sx halfWidth Axis.width)
        y := some cy
        z := some (clampWithinRoom room sz halfDepth Axis.depth) } }

/-- Embedding of `sanitizeLayout`: resolve the room (falling back to
`options.roomFallback`), map `sanitizeObject` over `layout.objects ?? []`,
and spread the rest of the layout through unchanged. -/
def sanitizeLayout (layout : LayoutResponse) (options : SanitizeOptions) :
    LayoutResponse :=
  let room := layout.room.getD options.roomFallback
  { layout with
    room := some room
    objects := some ((layout.objects.getD []).map (sanitizeObject room options)) }

/-- Resolved x coordinate of an object (0 when absent; the sanitizer
always emits all three components). -/
def posX (o : LayoutObject) : ℚ := (o.position_m.getD {}).x.getD 0

/-- Resolved y coordinate of an object. -/
def posY (o : LayoutObject) : ℚ := (o.position_m.getD {}).y.getD 0

/-- Resolved z coordinate of an object. -/
def posZ (o : LayoutObject) : ℚ := (o.position_m.getD {}).z.getD 0

/-- Room the sanitizer resolves for a layout: `layout.room ?? options.roomFallback`. -/
def roomOf (l : LayoutResponse) (opts : SanitizeOptions) : LayoutRoom :=
  l.room.getD opts.roomFallback

/-- Horizontal half-extent on x used by the sanitizer: `(size.w ?? 0) / 2`. -/
def halfW (o : LayoutObject) : ℚ := (o.size_m.getD {}).w.getD 0 / 2

/-- Horizontal half-extent on z used by the sanitizer: `(size.d ?? 0) / 2`. -/
def halfD (o : LayoutObject) : ℚ := (o.size_m.getD {}).d.getD 0 / 2

/-- Explicitly supplied vertical coordinate of an object, when any:
`none` exactly when `position_m` is absent or its `y` component is. -/
def suppliedY (o : LayoutObject) : Option ℚ :=
  o.position_m.bind fun p => p.y

/-! Embedding of `src/lib/modelLoader.ts`. -/

/-- Point with required numeric components (TS `Vec3` as used by
`ModelMeta`, where all components are mandatory). -/
structure Point3 where
  x : ℚ
  y : ℚ
  z : ℚ
deriving DecidableEq, Repr

/-- Metadata describing one model asset (TS `ModelMeta`). -/
structure ModelMeta where
  path : String
  w : ℚ
  d : ℚ
  h : ℚ
  bbox_min : Point3
  bbox_max : Point3
  pivot : Point3
  anchors : String → Option Point3
  tags : List String
  margin : ℚ

/-- Manifest keyed by model identifier (TS `Record<string, ModelMeta>`). -/
def ModelsJson := String → Option ModelMeta

/-- Characters after the first `:` of a string, when one occurs
(mirrors `model.indexOf(":")` followed by `model.slice(idx + 1)`). -/
def afterColon : List Char → Option (List Char)
  | [] => none
  | c :: rest => if c = ':' then some rest else afterColon rest

/-- Embedding of `extractKey`: a nullish or empty model string yields
`undefined`; otherwise everything after the first colon, or the whole
string when there is no colon. -/
def extractKey (model : Option String) : Option String :=
  match model with
  | none => none
  | some m =>
    if m = "" then none
    else
      match afterColon m.toList with
      | some rest => some (String.mk rest)
      | none => some m

/-- Prefix test mirroring JS `String.prototype.startsWith` on the
character lists of the two strings. -/
def listStartsWith : List Char → List Char → Bool
  | _, [] => true
  | [], _ :: _ => false
  | c :: cs, d :: ds => c == d && listStartsWith cs ds

/-- String form of `listStartsWith`: does `s` start with `pre`? -/
def strStartsWith (s pre : String) : Bool :=
  listStartsWith s.toList pre.toList

/-- Embedding of `getModelMeta`: extract the lookup key (a falsy key
yields `undefined`) and return the manifest entry, if any. -/
def getModelMeta (models : ModelsJson) (key : String) : Option ModelMeta :=
  match extractKey (some key) with
  | none => none
  | some lookup =>
    if lookup = "" then none else models lookup

/-- Embedding of `resolveModelPath`: extract the lookup key (a falsy key
yields `undefined`), look the entry up in the manifest, and ignore a
truthy path that does not start with `"/models/"`. -/
def resolveModelPath (models : ModelsJson) (key : String) : Option String :=
  match extractKey (some key) with
  | none => none
  | some lookup =>
    if lookup = "" then none
    else
      match models lookup with
      | none => none
      | some meta =>
        let path := meta.path
        if path != "" && ! strStartsWith path "/models/" then none
        else some path

/-! Concrete inputs used by the example theorems, witnesses and
counterexamples.  `routeOptions` is the option record the API route
passes: `{ snap: 0.1, roomFallback: { width_m: 4, depth_m: 3.5, height_m: 2.7 } }`. -/

/-- Room of the end-to-end example: `{width_m: 4, depth_m: 3.5, height_m: 2.7}`. -/
def exRoom : LayoutRoom := { width_m := 4, depth_m := 7/2, height_m := 27/10 }

/-- Sanitizer options as passed by the API route. -/
def routeOptions : SanitizeOptions := { snap := 1/10, roomFallback := exRoom }

/-- Object of the end-to-end example: `{id: "a", position_m: {x:10,y:0,z:0}, size_m: {w:1,d:1,h:1}}`. -/
def objA : LayoutObject :=
  { id := "a"
    position_m := some { x := some 10, y := some 0, z := some 0 }
    size_m := some { w := some 1, d := some 1, h := some 1 } }

/-- Layout of the end-to-end example. -/
def exLayout : LayoutResponse := { room := some exRoom, objects := some [objA] }

/-- Object wider than the room: explicit width 6 in a room of width 4. -/
def objWide : LayoutObject :=
  { id := "wide"
    position_m := some { x := some 0, y := some 0, z := some 0 }
    size_m := some { w := some 6 } }

/-- Layout holding the too-wide object. -/
def wideLayout : LayoutResponse := { room := some exRoom, objects := some [objWide] }

/-- Cycle member A: its parent field names B. -/
def objCycA : LayoutObject :=
  { id := "a"
    position_m := some { x := some 1, y := some 0, z := some 0 }
    size_m := some { w := some 1, d := some 1, h := some 1 }
    parent := some "b" }

/-- Cycle member B: its parent field names A. -/
def objCycB : LayoutObject :=
  { id := "b"
    position_m := some { x := some (-1), y := some 0, z := some 0 }
    size_m := some { w := some 1, d := some 1, h := some 1 }
    parent := some "a" }

/-- Object outside the cycle. -/
def objCycC : LayoutObject :=
  { id := "c"
    position_m := some { x := some 0, y := some 0, z := some 0 }
    size_m := some { w := some 1, d := some 1, h := some 1 } }

/-- Layout with the two-object parent cycle plus one outside object. -/
def cycLayout : LayoutResponse :=
  { room := some exRoom, objects := some [objCycA, objCycB, objCycC] }

/-- First of two identical unit cubes at the origin. -/
def cube1 : LayoutObject :=
  { id := "c1"
    position_m := some { x := some 0, y := some 0, z := some 0 }
    size_m := some { w := some 1, d := some 1, h := some 1 } }

/-- Second of two identical unit cubes at the origin. -/
def cube2 : LayoutObject :=
  { id := "c2"
    position_m := some { x := some 0, y := some 0, z := some 0 }
    size_m := some { w := some 1, d := some 1, h := some 1 } }

/-- Layout with the two coincident cubes. -/
def overlapLayout : LayoutResponse := { room := some exRoom, objects := some [cube1, cube2] }

/-- Root object of height 1 with no explicit vertical coordinate. -/
def objFloor : LayoutObject :=
  { id := "f", size_m := some { h := some 1 } }

/-- Parented object with an explicit vertical coordinate. -/
def objParented : LayoutObject :=
  { id := "p"
    parent := some "f"
    position_m := some { x := some 0, y := some (3/10), z := some 0 }
    size_m := some { h := some 1 } }

/-- Root object with no explicit size whose height is known only through
the models manifest (its model key resolves to metadata with h = 1). -/
def metaObj : LayoutObject := { id := "m", model := some "gltf:desk" }

/-- Layout holding the metadata-only-height object. -/
def metaLayout : LayoutResponse := { room := some exRoom, objects := some [metaObj] }

/-- Object naming a parent identifier that exists on no object. -/
def ghostObj : LayoutObject :=
  { id := "x", parent := some "ghost", size_m := some { h := some 1 } }

/-- Layout whose only object has a dangling parent reference. -/
def ghostLayout : LayoutResponse := { room := some exRoom, objects := some [ghostObj] }

/-- Object with a negative explicit width, positioned outside the room. -/
def negObj : LayoutObject :=
  { id := "n"
    position_m := some { x := some 3, y := some 0, z := some 0 }
    size_m := some { w := some (-4) } }

/-- Layout holding the negative-size object. -/
def negLayout : LayoutResponse := { room := some exRoom, objects := some [negObj] }

/-- Object with every optional field absent. -/
def emptyObj : LayoutObject := { id := "e" }

/-- Manifest entry whose path is the empty string. -/
def badMeta : ModelMeta :=
  { path := ""
    w := 0, d := 0, h := 0
    bbox_min := ⟨0, 0, 0⟩, bbox_max := ⟨0, 0, 0⟩, pivot := ⟨0, 0, 0⟩
    anchors := fun _ => none
    tags := []
    margin := 0 }

/-- Manifest holding only the empty-path entry under key `"bad"`. -/
def badManifest : ModelsJson := fun k => if k = "bad" then some badMeta else none

/-- Manifest entry with a well-formed public path. -/
def goodMeta : ModelMeta :=
  { path := "/models/desk.glb"
    w := 1, d := 1, h := 1
    bbox_min := ⟨0, 0, 0⟩, bbox_max := ⟨1, 1, 1⟩, pivot := ⟨0, 0, 0⟩
    anchors := fun _ => none
    tags := ["desk"]
    margin := 0 }

/-- Manifest holding only the well-formed entry under key `"desk"`. -/
def goodManifest : ModelsJson := fun k => if k = "desk" then some goodMeta else none

/-! Helper lemmas shared by the claim theorems. -/

/-- Object list of a sanitized layout: the per-object map over the input list. -/
lemma sanitizeLayout_objects (l : LayoutResponse) (opts : SanitizeOptions)
    (os : List LayoutObject) (h : l.objects = some os) :
    (sanitizeLayout l opts).objects = some (os.map (sanitizeObject (roomOf l opts) opts)) := by
  simp [sanitizeLayout, roomOf, h]

/-- Resolved x coordinate of a sanitized object, in closed form. -/
lemma posX_sanitizeObject (room : LayoutRoom) (opts : SanitizeOptions) (o : LayoutObject) :
    posX (sanitizeObject room opts o) =
      clampWithinRoom room
        (snapValue opts.snap ((o.position_m.getD { x := some 0, y := some 0, z := some 0 }).x.getD 0))
        (halfW o) Axis.width := by
  simp [sanitizeObject, posX, halfW]

/-- Resolved z coordinate of a sanitized object, in closed form. -/
lemma posZ_sanitizeObject (room : LayoutRoom) (opts : SanitizeOptions) (o : LayoutObject) :
    posZ (sanitizeObject room opts o) =
      clampWithinRoom room
        (snapValue opts.snap ((o.position_m.getD { x := some 0, y := some 0, z := some 0 }).z.getD 0))
        (halfD o) Axis.depth := by
  simp [sanitizeObject, posZ, halfD]

/-- Resolved y coordinate of a sanitized object, in closed form. -/
lemma posY_sanitizeObject (room : LayoutRoom) (opts : SanitizeOptions) (o : LayoutObject) :
    posY (sanitizeObject room opts o) =
      (let sy := snapValue opts.snap
        ((o.position_m.getD { x := some 0, y := some 0, z := some 0 }).y.getD 0)
      if hasParent o then sy
      else
        match (o.size_m.getD {}).h with
        | none => sy
        | some h => max (h / 2) sy) := by
  simp only [sanitizeObject, posY, Option.getD_some]

/-- Snapping a zero coordinate yields zero, for every step. -/
lemma snapValue_zero (s : ℚ) : snapValue s 0 = 0 := by
  simp [snapValue]

/-- Arithmetic core of containment: a clamped value with half-extent
between 0 and the half-room keeps the footprint inside the room. -/
lemma clamp_mem (lim h v : ℚ) (hle : h ≤ lim) :
    -lim ≤ max (-lim + h) (min (lim - h) v) - h ∧
      max (-lim + h) (min (lim - h) v) + h ≤ lim := by
  constructor
  · have h1 : -lim + h ≤ max (-lim + h) (min (lim - h) v) := le_max_left _ _
    linarith
  · have h2 : max (-lim + h) (min (lim - h) v) ≤ lim - h := by
      apply max_le
      · linarith
      · exact le_trans (min_le_left _ _) le_rfl
    linarith

/-- Arithmetic core of the too-wide case: when the half-extent exceeds
the half-room, the clamp collapses to its lower bound. -/
lemma clamp_wide (lim h v : ℚ) (hlt : lim < h) :
    max (-lim + h) (min (lim - h) v) = -lim + h := by
  apply max_eq_left
  exact le_trans (min_le_left _ _) (by linarith)

section Claims

/-- C7 (confirmed): the grid snapper `snapValue` computes
`round(value / step) * step`, and snapping is idempotent for every value
and every positive step, negative and already-aligned values included. -/
theorem snapValue_idempotent (v s : ℚ) (hs : 0 < s) :
    snapValue s (snapValue s v) = snapValue s v := by
  unfold snapValue
  rw [mul_div_cancel_right₀ _ (ne_of_gt hs), round_intCast]

/-- Witness for C7 at a negative, non-aligned value and step 0.1. -/
theorem snapValue_idempotent_witness :
    (0 : ℚ) < 1/10 ∧
      snapValue (1/10) (snapValue (1/10) (-27/200)) = snapValue (1/10) (-27/200) :=
  ⟨by norm_num, snapValue_idempotent (-27/200) (1/10) (by norm_num)⟩

/-- C2 (confirmed): on the room `{width_m: 4, depth_m: 3.5, height_m: 2.7}`
and the single unparented object `{id: "a", position_m: {x:10,y:0,z:0},
size_m: {w:1,d:1,h:1}}`, `sanitizeLayout` clamps x to 1.5, leaves z at 0,
and floor-rests y at 0.5. -/
theorem sanitize_end_to_end_example :
    sanitizeLayout exLayout routeOptions =
      { room := some exRoom
        objects := some [{ objA with
          position_m := some { x := some (3/2), y := some (1/2), z := some 0 } }] } := by
  simp [sanitizeLayout, sanitizeObject, exLayout, objA, exRoom, routeOptions,
    snapValue, clampWithinRoom, hasParent, round_eq]
  norm_num

/-- C5 (corrected, counterexample): a root object with no explicit size
whose height is known only from the models manifest (here h = 1 via
`getModelMeta`) gets no floor rest: `sanitizeLayout` never consults
metadata, so its unsupplied vertical coordinate resolves to 0, not to
h / 2 = 0.5. -/
theorem floor_resting_metadata_counterexample :
    metaObj.size_m = none ∧ metaObj.parent = none ∧ suppliedY metaObj = none ∧
    metaObj.model = some "gltf:desk" ∧
    getModelMeta goodManifest "gltf:desk" = some goodMeta ∧ goodMeta.h = 1 ∧
    sanitizeLayout metaLayout routeOptions =
      { room := some exRoom
        objects := some
          [{ metaObj with position_m := some { x := some 0, y := some 0, z := some 0 } }] } ∧
    posY { metaObj with position_m := some { x := some 0, y := some 0, z := some 0 } } = 0 ∧
    (0 : ℚ) ≠ 1 / 2 := by
  refine ⟨rfl, rfl, rfl, rfl, rfl, rfl, ?_, by simp [posY], by norm_num⟩
  simp [sanitizeLayout, sanitizeObject, metaLayout, metaObj, exRoom, routeOptions,
    snapValue, clampWithinRoom, hasParent, round_eq]
  norm_num

/-- C5 (corrected, amended): an unparented object whose vertical
coordinate is not supplied and whose explicit height h is known (and
nonnegative) resolves to vertical position h / 2 — the explicit size is
the only height source `sanitizeLayout` consults — and a parented object
(truthy parent field) never receives floor correction: its vertical
position is just its snapped input coordinate. -/
theorem floor_resting_rule :
    (∀ (room : LayoutRoom) (opts : SanitizeOptions) (o : LayoutObject) (h : ℚ),
        hasParent o = false → suppliedY o = none →
        (o.size_m.getD {}).h = some h → 0 ≤ h →
        posY (sanitizeObject room opts o) = h / 2) ∧
    (∀ (room : LayoutRoom) (opts : SanitizeOptions) (o : LayoutObject),
        hasParent o = true →
        posY (sanitizeObject room opts o) =
          snapValue opts.snap
            ((o.position_m.getD { x := some 0, y := some 0, z := some 0 }).y.getD 0)) := by
  constructor
  · intro room opts o h hpar hy hh h0
    have hy0 : (o.position_m.getD { x := some 0, y := some 0, z := some 0 }).y.getD 0 = 0 := by
      cases hpm : o.position_m with
      | none => simp [hpm]
      | some p =>
        have : p.y = none := by simpa [suppliedY, hpm] using hy
        simp [hpm, this]
    rw [posY_sanitizeObject]
    simp only [hy0, snapValue_zero, hpar, hh, if_false, Bool.false_eq_true]
    exact max_eq_left (by linarith)
  · intro room opts o hpar
    rw [posY_sanitizeObject]
    simp [hpar]

/-- Witness for C5: the height-1 root object resolves to y = 0.5, and the
parented object keeps its snapped vertical coordinate 0.3. -/
theorem floor_resting_rule_witness :
    (hasParent objFloor = false ∧ suppliedY objFloor = none ∧
      (objFloor.size_m.getD {}).h = some 1 ∧ (0 : ℚ) ≤ 1 ∧
      posY (sanitizeObject exRoom routeOptions objFloor) = 1 / 2) ∧
    (hasParent objParented = true ∧
      posY (sanitizeObject exRoom routeOptions objParented) =
        snapValue routeOptions.snap
          ((objParented.position_m.getD { x := some 0, y := some 0, z := some 0 }).y.getD 0)) := by
  constructor
  · refine ⟨by simp [hasParent, objFloor], by simp [suppliedY, objFloor], rfl, by norm_num, ?_⟩
    exact floor_resting_rule.1 exRoom routeOptions objFloor 1
      (by simp [hasParent, objFloor]) (by simp [suppliedY, objFloor]) rfl (by norm_num)
  · refine ⟨by simp [hasParent, objParented], ?_⟩
    exact floor_resting_rule.2 exRoom routeOptions objParented (by simp [hasParent, objParented])

/-- C1 (corrected, counterexample): in the room of width 4 (half-extent 2),
an object of explicit width 6 (half-extent 3) at x = 0 is clamped to
x = 1 = -limit + half, not to the room center 0, and its footprint cannot
lie within the room. -/
theorem clamp_center_counterexample :
    (sanitizeLayout wideLayout routeOptions).objects =
      some [{ objWide with position_m := some { x := some 1, y := some 0, z := some 0 } }] ∧
    exRoom.width_m / 2 < halfW objWide ∧
    posX { objWide with position_m := some { x := some 1, y := some 0, z := some 0 } } = 1 ∧
    (1 : ℚ) ≠ 0 := by
  refine ⟨?_, by norm_num [exRoom, halfW, objWide], by simp [posX], by norm_num⟩
  simp [sanitizeLayout, sanitizeObject, wideLayout, objWide, exRoom, routeOptions,
    snapValue, clampWithinRoom, hasParent, round_eq]
  norm_num

/-- C1 (corrected, amended): every sanitized object is in the output; when
the horizontal half-extent is between 0 and the room half-extent, the
clamped footprint lies within the room on that axis (`clamp(value,
-limit + half, limit - half)`); when the half-extent exceeds the room
half-extent, the clamped coordinate is `-limit + half` (the lower clamp
bound prevails), not the room center. -/
theorem sanitize_footprint_containment
    (l : LayoutResponse) (opts : SanitizeOptions) (o : LayoutObject)
    (ho : o ∈ l.objects.getD []) :
    sanitizeObject (roomOf l opts) opts o ∈ (sanitizeLayout l opts).objects.getD [] ∧
    (0 ≤ halfW o → halfW o ≤ (roomOf l opts).width_m / 2 →
      -((roomOf l opts).width_m / 2) ≤ posX (sanitizeObject (roomOf l opts) opts o) - halfW o ∧
      posX (sanitizeObject (roomOf l opts) opts o) + halfW o ≤ (roomOf l opts).width_m / 2) ∧
    (0 ≤ halfD o → halfD o ≤ (roomOf l opts).depth_m / 2 →
      -((roomOf l opts).depth_m / 2) ≤ posZ (sanitizeObject (roomOf l opts) opts o) - halfD o ∧
      posZ (sanitizeObject (roomOf l opts) opts o) + halfD o ≤ (roomOf l opts).depth_m / 2) ∧
    ((roomOf l opts).width_m / 2 < halfW o →
      posX (sanitizeObject (roomOf l opts) opts o) = -((roomOf l opts).width_m / 2) + halfW o) ∧
    ((roomOf l opts).depth_m / 2 < halfD o →
      posZ (sanitizeObject (roomOf l opts) opts o) = -((roomOf l opts).depth_m / 2) + halfD o) := by
  refine ⟨?_, ?_, ?_, ?_, ?_⟩
  · have hmap : (sanitizeLayout l opts).objects.getD [] =
        (l.objects.getD []).map (sanitizeObject (roomOf l opts) opts) := by
      simp [sanitizeLayout, roomOf]
    rw [hmap]
    exact List.mem_map_of_mem _ ho
  · intro _ hle
    rw [posX_sanitizeObject]
    simpa [clampWithinRoom] using
      clamp_mem ((roomOf l opts).width_m / 2) (halfW o)
        (snapValue opts.snap
          ((o.position_m.getD { x := some 0, y := some 0, z := some 0 }).x.getD 0)) hle
  · intro _ hle
    rw [posZ_sanitizeObject]
    simpa [clampWithinRoom] using
      clamp_mem ((roomOf l opts).depth_m / 2) (halfD o)
        (snapValue opts.snap
          ((o.position_m.getD { x := some 0, y := some 0, z := some 0 }).z.getD 0)) hle
  · intro hlt
    rw [posX_sanitizeObject]
    simpa [clampWithinRoom] using
      clamp_wide ((roomOf l opts).width_m / 2) (halfW o)
        (snapValue opts.snap
          ((o.position_m.getD { x := some 0, y := some 0, z := some 0 }).x.getD 0)) hlt
  · intro hlt
    rw [posZ_sanitizeObject]
    simpa [clampWithinRoom] using
      clamp_wide ((roomOf l opts).depth_m / 2) (halfD o)
        (snapValue opts.snap
          ((o.position_m.getD { x := some 0, y := some 0, z := some 0 }).z.getD 0)) hlt

/-- Witness for the amended C1 at the end-to-end layout and object. -/
theorem sanitize_footprint_containment_witness :
    sanitizeObject (roomOf exLayout routeOptions) routeOptions objA ∈
        (sanitizeLayout exLayout routeOptions).objects.getD [] ∧
    (0 ≤ halfW objA → halfW objA ≤ (roomOf exLayout routeOptions).width_m / 2 →
      -((roomOf exLayout routeOptions).width_m / 2) ≤
          posX (sanitizeObject (roomOf exLayout routeOptions) routeOptions objA) - halfW objA ∧
      posX (sanitizeObject (roomOf exLayout routeOptions) routeOptions objA) + halfW objA ≤
        (roomOf exLayout routeOptions).width_m / 2) ∧
    (0 ≤ halfD objA → halfD objA ≤ (roomOf exLayout routeOptions).depth_m / 2 →
      -((roomOf exLayout routeOptions).depth_m / 2) ≤
          posZ (sanitizeObject (roomOf exLayout routeOptions) routeOptions objA) - halfD objA ∧
      posZ (sanitizeObject (roomOf exLayout routeOptions) routeOptions objA) + halfD objA ≤
        (roomOf exLayout routeOptions).depth_m / 2) ∧
    ((roomOf exLayout routeOptions).width_m / 2 < halfW objA →
      posX (sanitizeObject (roomOf exLayout routeOptions) routeOptions objA) =
        -((roomOf exLayout routeOptions).width_m / 2) + halfW objA) ∧
    ((roomOf exLayout routeOptions).depth_m / 2 < halfD objA →
      posZ (sanitizeObject (roomOf exLayout routeOptions) routeOptions objA) =
        -((roomOf exLayout routeOptions).depth_m / 2) + halfD objA) :=
  sanitize_footprint_containment exLayout routeOptions objA (by simp [exLayout])

/-- C3 (corrected, counterexample): on the layout where object a names b
as parent and b names a, the sanitizer returns both cycle members fully
resolved (positions snapped and clamped) alongside the outside object;
nothing is marked failed and the result type carries no CyclicReference
condition. -/
theorem cycle_no_failure_counterexample :
    objCycA.parent = some objCycB.id ∧ objCycB.parent = some objCycA.id ∧
    sanitizeLayout cycLayout routeOptions =
      { room := some exRoom
        objects := some
          [{ objCycA with position_m := some { x := some 1, y := some 0, z := some 0 } },
           { objCycB with position_m := some { x := some (-1), y := some 0, z := some 0 } },
           { objCycC with position_m := some { x := some 0, y := some (1/2), z := some 0 } }] } := by
  refine ⟨rfl, rfl, ?_⟩
  simp [sanitizeLayout, sanitizeObject, cycLayout, objCycA, objCycB, objCycC, exRoom,
    routeOptions, snapValue, clampWithinRoom, hasParent, round_eq]
  norm_num

/-- C3 (corrected, amended): for every layout in which A names B as parent
and B names A, `sanitizeLayout` completes and resolves every object —
the cycle members included — by the same per-object snap/clamp rule; no
cycle detection is performed and nothing fails. -/
theorem cycle_objects_resolve_normally
    (l : LayoutResponse) (opts : SanitizeOptions) (os : List LayoutObject)
    (a b : LayoutObject)
    (hobj : l.objects = some os) (ha : a ∈ os) (hb : b ∈ os)
    (_hpa : a.parent = some b.id) (_hpb : b.parent = some a.id) :
    (sanitizeLayout l opts).objects = some (os.map (sanitizeObject (roomOf l opts) opts)) ∧
    sanitizeObject (roomOf l opts) opts a ∈ (sanitizeLayout l opts).objects.getD [] ∧
    sanitizeObject (roomOf l opts) opts b ∈ (sanitizeLayout l opts).objects.getD [] := by
  have hmap := sanitizeLayout_objects l opts os hobj
  refine ⟨hmap, ?_, ?_⟩
  · rw [hmap]
    exact List.mem_map_of_mem _ ha
  · rw [hmap]
    exact List.mem_map_of_mem _ hb

/-- Witness for the amended C3 at the concrete two-object cycle. -/
theorem cycle_objects_resolve_normally_witness :
    (sanitizeLayout cycLayout routeOptions).objects =
      some ([objCycA, objCycB, objCycC].map
        (sanitizeObject (roomOf cycLayout routeOptions) routeOptions)) ∧
    sanitizeObject (roomOf cycLayout routeOptions) routeOptions objCycA ∈
      (sanitizeLayout cycLayout routeOptions).objects.getD [] ∧
    sanitizeObject (roomOf cycLayout routeOptions) routeOptions objCycB ∈
      (sanitizeLayout cycLayout routeOptions).objects.getD [] :=
  cycle_objects_resolve_normally cycLayout routeOptions [objCycA, objCycB, objCycC]
    objCycA objCycB rfl (by simp) (by simp) rfl rfl

/-- C4 (corrected, counterexample): two identical unit cubes at the origin
both sanitize to the very same position (0, 0.5, 0); their footprints
still overlap on both horizontal axes, and the result carries no
UnresolvedOverlap flag: no overlap mitigation exists. -/
theorem overlap_unmitigated_counterexample :
    sanitizeLayout overlapLayout routeOptions =
      { room := some exRoom
        objects := some
          [{ cube1 with position_m := some { x := some 0, y := some (1/2), z := some 0 } },
           { cube2 with position_m := some { x := some 0, y := some (1/2), z := some 0 } }] } ∧
    |posX { cube1 with position_m := some { x := some 0, y := some (1/2), z := some 0 } } -
        posX { cube2 with position_m := some { x := some 0, y := some (1/2), z := some 0 } }| <
      halfW cube1 + halfW cube2 ∧
    |posZ { cube1 with position_m := some { x := some 0, y := some (1/2), z := some 0 } } -
        posZ { cube2 with position_m := some { x := some 0, y := some (1/2), z := some 0 } }| <
      halfD cube1 + halfD cube2 := by
  refine ⟨?_, ?_, ?_⟩
  · simp [sanitizeLayout, sanitizeObject, overlapLayout, cube1, cube2, exRoom,
      routeOptions, snapValue, clampWithinRoom, hasParent, round_eq]
    norm_num
  · simp [posX, halfW, cube1, cube2]
  · simp [posZ, halfD, cube1, cube2]

/-- C4 (corrected, amended): for every two-object layout the sanitizer
returns both objects after a single bounded pass (one map) and never
fails the layout, but it performs no overlap mitigation: each object's
output is computed from that object's own fields alone — the other
object never moves it, so no separation step exists — and in particular
two objects with identical position, size and parent fields resolve to
identical (fully coincident) positions; no UnresolvedOverlap condition
exists. -/
theorem sanitize_no_overlap_mitigation :
    (∀ (l : LayoutResponse) (opts : SanitizeOptions) (o1 o2 : LayoutObject),
        l.objects = some [o1, o2] →
        (sanitizeLayout l opts).objects =
          some [sanitizeObject (roomOf l opts) opts o1,
                sanitizeObject (roomOf l opts) opts o2]) ∧
    (∀ (room : LayoutRoom) (opts : SanitizeOptions) (o1 o2 : LayoutObject),
        o1.position_m = o2.position_m → o1.size_m = o2.size_m → o1.parent = o2.parent →
        (sanitizeObject room opts o1).position_m =
          (sanitizeObject room opts o2).position_m) := by
  constructor
  · intro l opts o1 o2 hobj
    simpa using sanitizeLayout_objects l opts [o1, o2] hobj
  · intro room opts o1 o2 hpos hsize hpar
    have hpp : hasParent o1 = hasParent o2 := by simp [hasParent, hpar]
    simp only [sanitizeObject, hpos, hsize, hpp]

/-- Witness for the amended C4 at the two coincident cubes. -/
theorem sanitize_no_overlap_mitigation_witness :
    ((sanitizeLayout overlapLayout routeOptions).objects =
      some [sanitizeObject (roomOf overlapLayout routeOptions) routeOptions cube1,
            sanitizeObject (roomOf overlapLayout routeOptions) routeOptions cube2]) ∧
    (sanitizeObject exRoom routeOptions cube1).position_m =
      (sanitizeObject exRoom routeOptions cube2).position_m :=
  ⟨sanitize_no_overlap_mitigation.1 overlapLayout routeOptions cube1 cube2 rfl,
   sanitize_no_overlap_mitigation.2 exRoom routeOptions cube1 cube2 rfl rfl rfl⟩

/-- C6 (corrected, counterexample): the object whose parent field names
the nonexistent identifier "ghost" is not treated as a root: its vertical
coordinate stays 0, whereas sanitizing the very same object as a root
yields the floor-rest 0.5; no DanglingParent warning exists anywhere in
the result. -/
theorem dangling_parent_counterexample :
    ghostObj.parent = some "ghost" ∧ ghostObj.id ≠ "ghost" ∧
    ghostLayout.objects = some [ghostObj] ∧
    sanitizeLayout ghostLayout routeOptions =
      { room := some exRoom
        objects := some
          [{ ghostObj with position_m := some { x := some 0, y := some 0, z := some 0 } }] } ∧
    posY { ghostObj with position_m := some { x := some 0, y := some 0, z := some 0 } } = 0 ∧
    posY (sanitizeObject exRoom routeOptions { ghostObj with parent := none }) = 1/2 ∧
    (0 : ℚ) ≠ 1/2 := by
  refine ⟨rfl, by decide, rfl, ?_, by simp [posY], ?_, by norm_num⟩
  · simp [sanitizeLayout, sanitizeObject, ghostLayout, ghostObj, exRoom, routeOptions,
      snapValue, clampWithinRoom, hasParent, round_eq]
    norm_num
  · simp [sanitizeObject, posY, ghostObj, snapValue, hasParent, round_eq]
    norm_num

/-- C6 (corrected, amended): an object naming a parent identifier that
exists on no object in the layout is not specially detected: it is
sanitized like any parented object — it stays in the output with its own
position snapped and clamped and receives no floor correction — and the
layout is never aborted; no DanglingParent warning is attached (the
result type has no warning channel). -/
theorem dangling_parent_sanitized_as_parented
    (l : LayoutResponse) (opts : SanitizeOptions) (os : List LayoutObject)
    (o : LayoutObject) (pid : String)
    (hobj : l.objects = some os) (ho : o ∈ os)
    (hp : o.parent = some pid) (hne : pid ≠ "")
    (_hdangling : ∀ o2 ∈ os, o2.id ≠ pid) :
    sanitizeObject (roomOf l opts) opts o ∈ (sanitizeLayout l opts).objects.getD [] ∧
    posY (sanitizeObject (roomOf l opts) opts o) =
      snapValue opts.snap
        ((o.position_m.getD { x := some 0, y := some 0, z := some 0 }).y.getD 0) := by
  constructor
  · have hmap := sanitizeLayout_objects l opts os hobj
    rw [hmap]
    exact List.mem_map_of_mem _ ho
  · rw [posY_sanitizeObject]
    have hpp : hasParent o = true := by simp [hasParent, hp, hne]
    simp [hpp]

/-- Witness for the amended C6 at the dangling-parent layout. -/
theorem dangling_parent_sanitized_as_parented_witness :
    sanitizeObject (roomOf ghostLayout routeOptions) routeOptions ghostObj ∈
        (sanitizeLayout ghostLayout routeOptions).objects.getD [] ∧
    posY (sanitizeObject (roomOf ghostLayout routeOptions) routeOptions ghostObj) =
      snapValue routeOptions.snap
        ((ghostObj.position_m.getD { x := some 0, y := some 0, z := some 0 }).y.getD 0) :=
  dangling_parent_sanitized_as_parented ghostLayout routeOptions [ghostObj] ghostObj "ghost"
    rfl (by simp) rfl (by decide) (by decide)

/-- C8 (corrected, counterexample): a present negative size is not
treated as absent: with explicit width -4, the object at x = 3 keeps
x = 3 (the widened clamp interval lets it through, outside the room's
half-extent 2), whereas default substitution would clamp it to 2. -/
theorem negative_size_propagates_counterexample :
    (negObj.size_m.getD {}).w = some (-4) ∧
    sanitizeLayout negLayout routeOptions =
      { room := some exRoom
        objects := some
          [{ negObj with position_m := some { x := some 3, y := some 0, z := some 0 } }] } ∧
    posX { negObj with position_m := some { x := some 3, y := some 0, z := some 0 } } = 3 ∧
    posX (sanitizeObject exRoom routeOptions { negObj with size_m := none }) = 2 ∧
    (3 : ℚ) ≠ 2 ∧
    exRoom.width_m / 2 < 3 := by
  refine ⟨rfl, ?_, by simp [posX], ?_, by norm_num, by norm_num [exRoom]⟩
  · simp [sanitizeLayout, sanitizeObject, negLayout, negObj, exRoom, routeOptions,
      snapValue, clampWithinRoom, hasParent, round_eq]
    norm_num
  · simp [sanitizeObject, posX, negObj, exRoom, routeOptions, snapValue,
      clampWithinRoom, hasParent, round_eq]
    norm_num

/-- C8 (corrected, amended): the sanitizer substitutes defaults only for
absent fields (a missing position or size component defaults to 0); a
present value — a negative size included — is used exactly as supplied
in the half-extent computation and thus propagates into the resolved
position. -/
theorem sanitize_defaults_and_as_is :
    (∀ (room : LayoutRoom) (opts : SanitizeOptions) (o : LayoutObject),
        o.size_m = none → o.position_m = none →
        (sanitizeObject room opts o).position_m = some
          { x := some (clampWithinRoom room (snapValue opts.snap 0) 0 Axis.width)
            y := some (snapValue opts.snap 0)
            z := some (clampWithinRoom room (snapValue opts.snap 0) 0 Axis.depth) }) ∧
    (∀ (room : LayoutRoom) (opts : SanitizeOptions) (o : LayoutObject) (w : ℚ),
        (o.size_m.getD {}).w = some w →
        posX (sanitizeObject room opts o) =
          clampWithinRoom room
            (snapValue opts.snap
              ((o.position_m.getD { x := some 0, y := some 0, z := some 0 }).x.getD 0))
            (w / 2) Axis.width) := by
  constructor
  · intro room opts o hsize hpos
    simp [sanitizeObject, hsize, hpos]
  · intro room opts o w hw
    rw [posX_sanitizeObject]
    simp [halfW, hw]

/-- Witness for the amended C8: the all-default object and the
negative-width object. -/
theorem sanitize_defaults_and_as_is_witness :
    ((sanitizeObject exRoom routeOptions emptyObj).position_m = some
      { x := some (clampWithinRoom exRoom (snapValue routeOptions.snap 0) 0 Axis.width)
        y := some (snapValue routeOptions.snap 0)
        z := some (clampWithinRoom exRoom (snapValue routeOptions.snap 0) 0 Axis.depth) }) ∧
    posX (sanitizeObject exRoom routeOptions negObj) =
      clampWithinRoom exRoom
        (snapValue routeOptions.snap
          ((negObj.position_m.getD { x := some 0, y := some 0, z := some 0 }).x.getD 0))
        ((-4) / 2) Axis.width :=
  ⟨sanitize_defaults_and_as_is.1 exRoom routeOptions emptyObj rfl rfl,
   sanitize_defaults_and_as_is.2 exRoom routeOptions negObj (-4) rfl⟩

/-- C9 (confirmed): `sanitizeLayout` is a pure function of its input (the
embedding is a total function; the TS code builds a fresh object with
spread syntax and never writes to its argument); the output object list
is a map over the input list — number and order preserved — the layout
rationale passes through, and for every object only `position_m` changes:
id, type, label, model, construction, rotation (never snapped), size,
parent, relative position and variant are returned unchanged. -/
theorem sanitize_preserves_fields
    (l : LayoutResponse) (opts : SanitizeOptions) (os : List LayoutObject)
    (hobj : l.objects = some os) :
    (sanitizeLayout l opts).objects = some (os.map (sanitizeObject (roomOf l opts) opts)) ∧
    ((sanitizeLayout l opts).objects.getD []).length = os.length ∧
    (sanitizeLayout l opts).rationale = l.rationale ∧
    ∀ o ∈ os,
      (sanitizeObject (roomOf l opts) opts o).id = o.id ∧
      (sanitizeObject (roomOf l opts) opts o).type = o.type ∧
      (sanitizeObject (roomOf l opts) opts o).label = o.label ∧
      (sanitizeObject (roomOf l opts) opts o).model = o.model ∧
      (sanitizeObject (roomOf l opts) opts o).construction = o.construction ∧
      (sanitizeObject (roomOf l opts) opts o).rotation_deg = o.rotation_deg ∧
      (sanitizeObject (roomOf l opts) opts o).size_m = o.size_m ∧
      (sanitizeObject (roomOf l opts) opts o).parent = o.parent ∧
      (sanitizeObject (roomOf l opts) opts o).relative_position_m = o.relative_position_m ∧
      (sanitizeObject (roomOf l opts) opts o).variant = o.variant := by
  have hmap := sanitizeLayout_objects l opts os hobj
  refine ⟨hmap, by rw [hmap]; simp, by simp [sanitizeLayout], ?_⟩
  intro o _
  exact ⟨rfl, rfl, rfl, rfl, rfl, rfl, rfl, rfl, rfl, rfl⟩

/-- Witness for C9 at the end-to-end layout. -/
theorem sanitize_preserves_fields_witness :
    (sanitizeLayout exLayout routeOptions).objects =
      some ([objA].map (sanitizeObject (roomOf exLayout routeOptions) routeOptions)) ∧
    ((sanitizeLayout exLayout routeOptions).objects.getD []).length = [objA].length ∧
    (sanitizeLayout exLayout routeOptions).rationale = exLayout.rationale ∧
    (sanitizeObject (roomOf exLayout routeOptions) routeOptions objA).rotation_deg =
      objA.rotation_deg ∧
    (sanitizeObject (roomOf exLayout routeOptions) routeOptions objA).parent = objA.parent := by
  have h := sanitize_preserves_fields exLayout routeOptions [objA] rfl
  have ho := h.2.2.2 objA (by simp)
  exact ⟨h.1, h.2.1, h.2.2.1, ho.2.2.2.2.2.1, ho.2.2.2.2.2.2.2.1⟩

/-- C10 (corrected, counterexample): a manifest entry with the empty
string as path is returned as-is by `resolveModelPath` — a defined path
string that does not start with "/models/". -/
theorem resolveModelPath_empty_path_counterexample :
    resolveModelPath badManifest "bad" = some "" ∧
    strStartsWith "" "/models/" = false := ⟨rfl, rfl⟩

/-- C10 (corrected, amended): `resolveModelPath` returns `undefined`, or
the matching entry's path; every returned nonempty path starts with
"/models/" — a nonempty path outside the public models directory is
never returned — while an empty-string path (falsy, ignored by the
renderer) passes through unchecked. -/
theorem resolveModelPath_nonempty_public
    (models : ModelsJson) (key : String) (p : String)
    (hres : resolveModelPath models key = some p) (hne : p ≠ "") :
    strStartsWith p "/models/" = true := by
  simp only [resolveModelPath] at hres
  split at hres
  · simp at hres
  · split at hres
    · simp at hres
    · split at hres
      · simp at hres
      · split at hres
        · simp at hres
        · next hcond =>
            have hp := Option.some.inj hres
            rw [hp] at hcond
            cases hsw : strStartsWith p "/models/" with
            | true => rfl
            | false =>
              exfalso
              apply hcond
              simp [bne_iff_ne, hne, hsw]

/-- Witness for the amended C10 at a well-formed manifest entry reached
through a prefixed key. -/
theorem resolveModelPath_nonempty_public_witness :
    resolveModelPath goodManifest "gltf:desk" = some "/models/desk.glb" ∧
    "/models/desk.glb" ≠ "" ∧
    strStartsWith "/models/desk.glb" "/models/" = true :=
  ⟨rfl, by decide,
   resolveModelPath_nonempty_public goodManifest "gltf:desk" "/models/desk.glb" rfl (by decide)⟩

end Claims

end GeminiDesigner
